/-
Verification of the legacy configuration translation engine of doogie-cli.

The definitions below are a shallow embedding of the TypeScript sources:
  * src/services/dosbox-settings.ts      (schema tables, entry parsing,
    settings resolution, merging, win9x extraction, conf assembly)
  * the revised dosbox-settings module   (namespace V2: the legacy schema
    tables with the section-21 mapping deliberately omitted)
  * src/data/mapper/option-dat.ts        (namespace OptionDat)
  * src/data/mapper/defaults.ts          (WIN9X_DEFAULTS)
  * src/services/dosbox-template.ts      (template placeholder substitution,
    win9x display settings extraction)

JavaScript string primitives (trim, split, parseInt, regex scans) are
modelled explicitly on lists of characters, following ECMAScript semantics
for the constructs the sources use.
-/
import Mathlib

namespace Doogie

/-! ## JavaScript string primitives -/

/-- ASCII whitespace recognised by String.prototype.trim (space, tab,
newline, carriage return, vertical tab, form feed). -/
def isJsSpace (c : Char) : Bool :=
  c == ' ' || c == '\t' || c == '\n' || c == '\r' ||
  c == Char.ofNat 11 || c == Char.ofNat 12

/-- JS String.prototype.trim on a character list. -/
def jsTrimList (cs : List Char) : List Char :=
  ((cs.dropWhile isJsSpace).reverse.dropWhile isJsSpace).reverse

/-- JS String.prototype.trim. -/
def jsTrim (s : String) : String :=
  String.mk (jsTrimList s.data)

/-- JS String.prototype.split with a single-character separator. -/
def splitCh (sep : Char) : List Char → List (List Char)
  | [] => [[]]
  | c :: rest =>
    match splitCh sep rest with
    | [] => [[c]]
    | h :: t => if c == sep then [] :: h :: t else (c :: h) :: t

/-- JS Array.prototype.join with a single-character separator. -/
def joinCh (sep : Char) (xs : List (List Char)) : List Char :=
  List.intercalate [sep] xs

/-- Numeric value of a (decimal) digit run. -/
def digitsVal (ds : List Char) : Nat :=
  ds.foldl (fun a c => a * 10 + (c.toNat - 48)) 0

/-- Digit-run step of JS parseInt: longest decimal digit prefix, NaN if empty. -/
def jsParseIntFrom (sign : Int) (cs : List Char) : Option Int :=
  let ds := cs.takeWhile Char.isDigit
  if ds.isEmpty then none else some (sign * (digitsVal ds : Int))

/-- JS parseInt(s, 10) on a character list: skip leading whitespace, optional
sign, then the longest decimal digit prefix; `none` models NaN. -/
def jsParseIntList (cs : List Char) : Option Int :=
  match cs.dropWhile isJsSpace with
  | '-' :: rest => jsParseIntFrom (-1) rest
  | '+' :: rest => jsParseIntFrom 1 rest
  | rest => jsParseIntFrom 1 rest

/-- JS parseInt(s, 10); `none` models NaN. -/
def jsParseInt (s : String) : Option Int :=
  jsParseIntList s.data

/-- JS `x || d` over a parseInt result: NaN and 0 both fall back to `d`. -/
def jsOrInt (o : Option Int) (d : Int) : Int :=
  match o with
  | none => d
  | some n => if n == 0 then d else n

/-- JS `x || d` over a numeric table lookup: undefined and 0 fall back to `d`. -/
def jsOrNat (o : Option Nat) (d : Nat) : Nat :=
  match o with
  | none => d
  | some n => if n == 0 then d else n

/-! ## Association-list model of JS objects / Maps

JS objects keep insertion order; updating an existing property keeps its
position, a fresh property is appended at the end. -/

/-- Property read `m[k]`: the entry with the given key (keys are unique in
every object the embedded program builds). -/
def alookup {κ α : Type} [BEq κ] : List (κ × α) → κ → Option α
  | [], _ => none
  | p :: rest, k => if p.1 == k then some p.2 else alookup rest k

/-- Property write `m[k] = v`: update in place if present, else append. -/
def setKV {κ α : Type} [BEq κ] : List (κ × α) → κ → α → List (κ × α)
  | [], k, v => [(k, v)]
  | p :: rest, k, v =>
    if p.1 == k then (k, v) :: rest else p :: setKV rest k v

/-- The nested settings map `sectionName -> keyName -> value`. -/
abbrev DosboxSettings : Type := List (String × List (String × String))

/-- `if (!settings[s]) settings[s] = {}`. -/
def ensureSec : DosboxSettings → String → DosboxSettings
  | [], s => [(s, [])]
  | p :: rest, s => if p.1 == s then p :: rest else p :: ensureSec rest s

/-- `settings[s][k] = v` with section creation. -/
def setIn : DosboxSettings → String → String → String → DosboxSettings
  | [], s, k, v => [(s, [(k, v)])]
  | p :: rest, s, k, v =>
    if p.1 == s then (s, setKV p.2 k v) :: rest else p :: setIn rest s k v

/-- Read `settings[s][k]`. -/
def lookup2 (m : DosboxSettings) (s k : String) : Option String :=
  match alookup m s with
  | none => none
  | some items => alookup items k

/-! ## Data model of the entry parser -/

/-- A parsed `section|item|value` triple of an edit.conf override file. -/
structure EditConfEntry where
  sectionIdx : Int
  itemIdx : Int
  value : String
deriving Repr, DecidableEq

/-! ## Schema registry tables (generated from the sources verbatim) -/
/-- Section index to section name map of the current schema (src/services/dosbox-settings.ts). -/
def SECTION_INDEX : List (Int × String) := [
  (0, "default"),
  (1, "win9x"),
  (2, "pcem"),
  (3, "separator"),
  (4, "log"),
  (5, "sdl"),
  (6, "dos"),
  (7, "dosbox"),
  (8, "cpu"),
  (9, "render"),
  (10, "mixer"),
  (11, "sblaster"),
  (12, "midi"),
  (13, "gus"),
  (14, "speaker"),
  (15, "innova"),
  (16, "joystick"),
  (17, "serial"),
  (18, "printer"),
  (19, "parallel"),
  (20, "glide"),
  (21, "voodoo"),
  (22, "pci"),
  (23, "vsync"),
  (24, "keyboard"),
  (25, "ne2000"),
  (26, "fdc, primary"),
  (27, "ide, primary"),
  (28, "ide, secondary"),
  (29, "ide, tertiary"),
  (30, "ide, quaternary"),
  (31, "mapper"),
  (32, "ethernet, pcap"),
  (33, "ethernet, slirp"),
  (34, "fluidsynth"),
  (35, "video"),
  (36, "pc98"),
  (37, "ttf"),
  (38, "config"),
  (39, "dosv")]

/-- Per-section item index to key name map of the current schema (src/services/dosbox-settings.ts). -/
def SECTION_ITEMS : List (Int × List (Int × String)) := [
  (0, [(0, "version"), (1, "DirectX"), (2, "Menu"), (3, "SavePath"), (4, "SetAspect")]),
  (1, [(0, "9xdrv"), (1, "9xres"), (2, "9xddraw"), (3, "9xd3d"), (4, "9x3dfx"), (5, "9xmpu"), (6, "9xmaster"), (7, "9xwave"), (8, "9xmidi"), (9, "9xcd"), (10, "9xboot")]),
  (5, [(0, "fullscreen"), (1, "fulldouble"), (2, "fullresolution"), (3, "windowresolution"), (4, "output"), (5, "autolock"), (6, "sensitivity"), (7, "waitonerror"), (8, "priority"), (9, "mapperfile"), (10, "usescancodes"), (11, "overscan"), (12, "pixelshader"), (13, "autolock_feedback"), (14, "mouse_emulation")]),
  (6, [(0, "xms"), (1, "ems"), (2, "umb"), (3, "keyboardlayout"), (4, "enable a20 on windows init"), (17, "int 13 extensions")]),
  (7, [(0, "language"), (1, "machine"), (2, "captures"), (3, "memsize"), (4, "vmemsize"), (5, "vmemsizekb"), (58, "enable pci bus")]),
  (8, [(0, "core"), (1, "cputype"), (2, "cycles"), (3, "cycleup"), (4, "cycledown"), (5, "isapnpbios"), (11, "apmbios")]),
  (9, [(0, "frameskip"), (1, "aspect"), (2, "scaler")]),
  (10, [(0, "nosound"), (1, "rate"), (2, "blocksize"), (3, "prebuffer")]),
  (11, [(0, "sbtype"), (1, "sbbase"), (2, "irq"), (3, "dma"), (4, "hdma"), (5, "sbmixer"), (6, "oplmode"), (7, "oplemu"), (8, "oplrate")]),
  (12, [(0, "mpu401"), (1, "mididevice"), (2, "midiconfig")]),
  (13, [(0, "gus"), (1, "gusrate"), (2, "gusbase"), (3, "gusirq"), (4, "gusdma")]),
  (14, [(0, "pcspeaker"), (1, "pcrate"), (2, "tandy"), (3, "tandyrate"), (4, "disney")]),
  (16, [(0, "joysticktype"), (1, "timed"), (2, "autofire"), (3, "swap34"), (4, "buttonwrap")]),
  (20, [(0, "glide"), (1, "lfb"), (2, "splash")]),
  (21, [(0, "voodoo"), (1, "voodoomem")]),
  (22, [(0, "voodoo"), (1, "voodoomem")]),
  (27, [(0, "enable"), (1, "pnp"), (2, "irq"), (3, "io"), (4, "altio"), (5, "int13fakeio"), (6, "int13fakev86io"), (7, "enable pio32"), (8, "ignore pio32"), (9, "cd-rom spinup time"), (10, "cd-rom spindown timeout"), (11, "cd-rom insertion delay")]),
  (28, [(0, "enable"), (1, "pnp"), (2, "irq"), (3, "io"), (4, "altio"), (5, "int13fakeio"), (6, "int13fakev86io"), (7, "enable pio32"), (8, "ignore pio32"), (9, "cd-rom spinup time"), (10, "cd-rom spindown timeout"), (11, "cd-rom insertion delay")])]

/-- Legacy section index map (src/services/dosbox-settings.ts). -/
def SECTION_INDEX_LEGACY : List (Int × String) := [
  (0, "default"),
  (1, "win9x"),
  (2, "pcem"),
  (3, "dosbox"),
  (6, "cpu"),
  (19, "glide"),
  (21, "voodoo"),
  (32, "ethernet, pcap")]

/-- Legacy per-section item map (src/services/dosbox-settings.ts). -/
def SECTION_ITEMS_LEGACY : List (Int × List (Int × String)) := [
  (0, [(0, "version")]),
  (1, [(0, "9xdrv"), (1, "9xres"), (2, "9xddraw"), (3, "9xd3d"), (4, "9x3dfx"), (5, "9xmpu"), (6, "9xmaster"), (7, "9xwave"), (8, "9xmidi"), (9, "9xcd"), (10, "9xboot")]),
  (3, [(1, "machine"), (3, "memsize"), (4, "vmemsize")]),
  (6, [(0, "core"), (1, "cputype"), (2, "cycles"), (5, "isapnpbios"), (11, "apmbios")]),
  (19, [(0, "mouse_emulation")]),
  (21, [(1, "9xres")]),
  (32, [(11, "cd-rom insertion delay")])]

/-- Section names from the Option.dat mapper module. -/
def OptionDat.SECTION_NAMES : List (Int × String) := [
  (0, "default"),
  (1, "win9x"),
  (2, "pcem"),
  (3, "separator"),
  (4, "log"),
  (5, "sdl"),
  (6, "dos"),
  (7, "dosbox"),
  (8, "cpu"),
  (9, "render"),
  (10, "mixer"),
  (11, "sblaster"),
  (12, "midi"),
  (13, "gus"),
  (14, "speaker"),
  (15, "innova"),
  (16, "joystick"),
  (17, "serial"),
  (18, "printer"),
  (19, "parallel"),
  (20, "glide"),
  (21, "voodoo"),
  (22, "pci"),
  (23, "vsync"),
  (24, "keyboard"),
  (25, "ne2000"),
  (26, "fdc, primary"),
  (27, "ide, primary"),
  (28, "ide, secondary"),
  (29, "ide, tertiary"),
  (30, "ide, quaternary"),
  (31, "mapper"),
  (32, "ethernet, pcap"),
  (33, "ethernet, slirp"),
  (34, "fluidsynth"),
  (35, "video"),
  (36, "pc98"),
  (37, "ttf"),
  (38, "config"),
  (39, "dosv")]

/-- Per-section item maps from the Option.dat mapper module. -/
def OptionDat.SECTION_ITEMS : List (Int × List (Int × String)) := [
  (0, [(0, "version"), (1, "DirectX"), (2, "Menu"), (3, "SavePath"), (4, "SetAspect")]),
  (1, [(0, "9xdrv"), (1, "9xres"), (2, "9xddraw"), (3, "9xd3d"), (4, "9x3dfx"), (5, "9xmpu"), (6, "9xmaster"), (7, "9xwave"), (8, "9xmidi"), (9, "9xcd"), (10, "9xboot")]),
  (2, [(0, "PCem_Machine"), (1, "PCem_CPU"), (2, "PCem_Video_Speed"), (3, "PCem_Voodoo"), (4, "PCem_Voodoo_Type")]),
  (4, [(0, "log"), (1, "logfile"), (2, "debuggerrun"), (3, "vga"), (4, "vgagfx"), (5, "vgamisc"), (6, "int10"), (7, "sblaster"), (8, "dma_control"), (9, "fpu"), (10, "cpu"), (11, "paging"), (12, "fcb"), (13, "files"), (14, "ioctl"), (15, "exec"), (16, "dosmisc"), (17, "pit"), (18, "keyboard"), (19, "pic"), (20, "mouse"), (21, "bios"), (22, "gui"), (23, "misc"), (24, "io"), (25, "pci"), (26, "sst")]),
  (5, [(0, "fullscreen"), (1, "fulldouble"), (2, "fullresolution"), (3, "windowresolution"), (4, "output"), (5, "autolock"), (6, "sensitivity"), (7, "waitonerror"), (8, "priority"), (9, "mapperfile"), (10, "usescancodes"), (11, "overscan"), (12, "pixelshader"), (13, "autolock_feedback"), (14, "mouse_emulation"), (15, "clip_mouse_button"), (16, "clip_key_modifier"), (17, "clip_paste_speed"), (18, "mouse_wheel_key"), (19, "display"), (20, "videodriver"), (21, "transparency"), (22, "maximize"), (23, "middle_unlock"), (24, "clip_paste_bios"), (25, "usesystemcursor"), (26, "showbasic"), (27, "showdetails"), (28, "texture_renderer"), (29, "capture_mouse"), (30, "raw_mouse_input"), (31, "screensaver"), (32, "windowposition"), (33, "showmenu")]),
  (6, [(0, "xms"), (1, "ems"), (2, "umb"), (3, "keyboardlayout"), (4, "enable a20 on windows init"), (5, "zero memory on xms memory allocation"), (6, "zero memory on ems memory allocation"), (7, "ems system handle memory size"), (8, "umb start"), (9, "umb end"), (10, "kernel allocation in umb"), (11, "dynamic kernel allocation"), (12, "keep umb on boot"), (13, "keep private area on boot"), (14, "private area in umb"), (15, "automount"), (16, "int33"), (17, "int 13 extensions"), (18, "biosps2"), (19, "int15 mouse callback does not preserve registers"), (20, "dbcs"), (21, "filenamechar"), (22, "collating and uppercase"), (23, "files"), (24, "con device use int 16h to detect keyboard input"), (25, "zero memory on int 21h memory allocation"), (26, "hma"), (27, "hma allow reservation"), (28, "hma minimum allocation"), (29, "log console"), (30, "dos in hma"), (31, "hma free space"), (32, "cpm compatibility mode"), (33, "share"), (34, "write plain iretf for debug interrupts"), (35, "minimum dos initial private segment"), (36, "minimum mcb segment"), (37, "enable dummy device mcb"), (38, "maximum environment block size on exec"), (39, "additional environment block size on exec"), (40, "dosv"), (41, "vcpi"), (42, "unmask timer on disk io"), (43, "zero int 67h if no ems"), (44, "emm386 startup active"), (45, "ems system handle on even megabyte"), (46, "ver"), (47, "int15 wait force unmask irq"), (48, "hard drive data rate limit"), (49, "dos sda size"), (50, "minimum mcb free"), (51, "xms handles"), (52, "shell configuration as commands"), (53, "int33 disable cell granularity"), (54, "int33 hide host cursor if interrupt subroutine"), (55, "int33 hide host cursor when polling"), (56, "ansi.sys"), (57, "quick reboot"), (58, "lfn"), (59, "automountall"), (60, "mountwarning"), (61, "autofixwarning"), (62, "startcmd"), (63, "startwait"), (64, "startquiet"), (65, "dos clipboard device enable"), (66, "dos clipboard device name"), (67, "dos clipboard api"), (68, "floppy drive data rate limit"), (69, "file access tries"), (70, "network redirector"), (71, "fat32setversion"), (72, "shellhigh"), (73, "starttranspath"), (74, "vmware"), (75, "customcodepage")]),
  (7, [(0, "language"), (1, "machine"), (2, "captures"), (3, "memsize"), (4, "vmemsize"), (5, "vmemsizekb"), (6, "cgasnow"), (7, "forcerate"), (8, "mainline compatible mapping"), (9, "mainline compatible bios mapping"), (10, "adapter rom is ram"), (11, "shell environment size"), (12, "private area size"), (13, "a20"), (14, "isa bus clock"), (15, "pci bus clock"), (16, "rom bios allocation max"), (17, "rom bios minimum size"), (18, "memsizekb"), (19, "dos mem limit"), (20, "isa memory hole at 512kb"), (21, "memalias"), (22, "vga bios size override"), (23, "video bios dont duplicate cga first half rom font"), (24, "video bios always offer 14-pixel high rom font"), (25, "video bios always offer 16-pixel high rom font"), (26, "video bios enable cga second half rom font"), (27, "sierra ramdac"), (28, "sierra ramdac lock 565"), (29, "page flip debug line"), (30, "vertical retrace poll debug line"), (31, "allow port 92 reset"), (32, "enable port 92"), (33, "enable 1st dma controller"), (34, "enable 2nd dma controller"), (35, "allow dma address decrement"), (36, "enable dma extra page registers"), (37, "dma page registers write-only"), (38, "enable slave pic"), (39, "enable pc nmi mask"), (40, "rom bios 8x8 CGA font"), (41, "rom bios video parameter table"), (42, "allow more than 640kb base memory"), (43, "vesa lfb base scanline adjust"), (44, "allow hpel effects"), (45, "allow hretrace effects"), (46, "hretrace effect weight"), (47, "vesa vbe 1.2 modes are 32bpp"), (48, "allow low resolution vesa modes"), (49, "allow 32bpp vesa modes"), (50, "allow 24bpp vesa modes"), (51, "allow 16bpp vesa modes"), (52, "allow 15bpp vesa modes"), (53, "allow 8bpp vesa modes"), (54, "allow 4bpp vesa modes"), (55, "allow tty vesa modes"), (56, "enable vga resize delay"), (57, "resize only on vga active display width increase"), (58, "enable pci bus")]),
  (8, [(0, "core"), (1, "cputype"), (2, "cycles"), (3, "cycleup"), (4, "cycledown"), (5, "isapnpbios"), (6, "enable msr"), (7, "ignore undefined msr"), (8, "dynamic core cache block size"), (9, "non-recursive page fault"), (10, "ignore opcode 63"), (11, "apmbios"), (12, "apmbios allow realmode"), (13, "apmbios allow 16-bit protected mode"), (14, "apmbios allow 32-bit protected mode"), (15, "integration device"), (16, "realbig16"), (17, "fpu"), (18, "segment limits"), (19, "double fault"), (20, "reset on triple fault"), (21, "always report double fault"), (22, "always report triple fault"), (23, "enable cmpxchg8b"), (24, "interruptible rep string op"), (25, "apmbios pnp"), (26, "apmbios version"), (27, "integration device pnp"), (28, "use dynamic core with paging on"), (29, "turbo")]),
  (9, [(0, "frameskip"), (1, "aspect"), (2, "scaler"), (3, "linewise"), (4, "char9"), (5, "multiscan"), (6, "doublescan"), (7, "autofit"), (8, "xbrz slice"), (9, "xbrz fixed scale factor"), (10, "xbrz max scale factor"), (11, "alt render"), (12, "glshader"), (13, "euro"), (14, "monochrome_pal"), (15, "aspect_ratio"), (16, "monochrome_palette")]),
  (10, [(0, "nosound"), (1, "rate"), (2, "blocksize"), (3, "prebuffer"), (4, "swapstereo"), (5, "MASTER"), (6, "SPKR"), (7, "GUS"), (8, "SB"), (9, "FM"), (10, "MT32"), (11, "sample accurate"), (12, "CDAUDIO")]),
  (11, [(0, "sbtype"), (1, "sbbase"), (2, "irq"), (3, "dma"), (4, "hdma"), (5, "sbmixer"), (6, "oplmode"), (7, "oplemu"), (8, "oplrate"), (9, "hardwarebase"), (10, "goldplay"), (11, "adlib force timer overflow on detect"), (12, "force dsp auto-init"), (13, "force goldplay"), (14, "goldplay stereo"), (15, "dsp require interrupt acknowledge"), (16, "dsp write busy delay"), (17, "blaster environment variable"), (18, "sample rate limits"), (19, "instant direct dac"), (20, "stereo control with sbpro only"), (21, "dsp busy cycle rate"), (22, "dsp busy cycle duty"), (23, "io port aliasing"), (24, "mindma"), (25, "irq hack"), (26, "pic unmask irq"), (27, "enable speaker"), (28, "enable asp"), (29, "disable filtering"), (30, "dsp write buffer status must return 0x7f or 0xff"), (31, "pre-set sbpro stereo"), (32, "dsp busy cycle always"), (33, "oplport"), (34, "retrowave_bus"), (35, "retrowave_port"), (36, "fmstrength")]),
  (12, [(0, "mpu401"), (1, "mididevice"), (2, "midiconfig"), (3, "mt32.reverse.stereo"), (4, "mt32.verbose"), (5, "mt32.thread"), (6, "mt32.dac"), (7, "mt32.reverb.mode"), (8, "mt32.reverb.time"), (9, "mt32.reverb.level"), (10, "mt32.partials"), (11, "mpuirq"), (12, "samplerate"), (13, "mt32.romdir"), (14, "mt32.reverb.output.gain"), (15, "mt32.chunk"), (16, "mt32.prebuffer"), (17, "mt32.analog"), (18, "mt32.output.gain"), (19, "mt32.src.quality"), (20, "mt32.niceampramp"), (21, "fluid.driver"), (22, "fluid.soundfont")]),
  (13, [(0, "gus"), (1, "gusrate"), (2, "gusbase"), (3, "gusirq"), (4, "gusdma"), (5, "gusmemsize"), (6, "gus master volume"), (7, "gustype"), (8, "ultradir")]),
  (14, [(0, "pcspeaker"), (1, "pcrate"), (2, "tandy"), (3, "tandyrate"), (4, "disney"), (5, "ps1audio"), (6, "ps1audiorate")]),
  (15, [(0, "innova"), (1, "samplerate"), (2, "sidbase"), (3, "quality")]),
  (16, [(0, "joysticktype"), (1, "timed"), (2, "autofire"), (3, "swap34"), (4, "buttonwrap")]),
  (17, [(0, "serial1"), (1, "serial2"), (2, "serial3"), (3, "serial4")]),
  (18, [(0, "printer"), (1, "dpi"), (2, "width"), (3, "height"), (4, "printoutput"), (5, "multipage"), (6, "docpath"), (7, "timeout")]),
  (19, [(0, "parallel1"), (1, "parallel2"), (2, "parallel3"), (3, "dongle")]),
  (20, [(0, "glide"), (1, "lfb"), (2, "splash"), (3, "grport")]),
  (21, [(0, "voodoo"), (1, "voodoo_card"), (2, "voodoo_maxmem"), (3, "glide"), (4, "lfb"), (5, "splash")]),
  (22, [(0, "voodoo"), (1, "voodoomem")]),
  (23, [(0, "vsyncmode"), (1, "vsyncrate")]),
  (24, [(0, "aux"), (1, "allow output port reset"), (2, "controllertype"), (3, "auxdevice")]),
  (25, [(0, "ne2000"), (1, "nicbase"), (2, "nicirq"), (3, "macaddr"), (4, "backend")]),
  (26, [(0, "enable"), (1, "pnp"), (2, "mode")]),
  (27, [(0, "enable"), (1, "pnp"), (2, "irq"), (3, "io"), (4, "altio"), (5, "int13fakeio"), (6, "int13fakev86io"), (7, "enable pio32"), (8, "ignore pio32"), (9, "cd-rom spinup time"), (10, "cd-rom spindown timeout"), (11, "cd-rom insertion delay")]),
  (28, [(0, "enable"), (1, "pnp"), (2, "irq"), (3, "io"), (4, "altio"), (5, "int13fakeio"), (6, "int13fakev86io"), (7, "enable pio32"), (8, "ignore pio32"), (9, "cd-rom spinup time"), (10, "cd-rom spindown timeout"), (11, "cd-rom insertion delay")]),
  (29, [(0, "enable"), (1, "pnp")]),
  (30, [(0, "enable"), (1, "pnp")]),
  (31, []),
  (35, [(0, "vmemsize"), (1, "vmemsizekb"), (2, "high intensity blinking")]),
  (38, [(0, "rem"), (1, "break"), (2, "numlock"), (3, "shell"), (4, "dos"), (5, "fcbs"), (6, "files"), (7, "country"), (8, "lastdrive")])]

/-- Legacy section index map of the revised dosbox-settings module; section 21 is deliberately omitted. -/
def V2.SECTION_INDEX_LEGACY : List (Int × String) := [
  (0, "default"),
  (1, "win9x"),
  (2, "pcem"),
  (3, "dosbox"),
  (6, "cpu"),
  (19, "glide"),
  (32, "ide, secondary")]

/-- Legacy per-section item map of the revised dosbox-settings module; section 21 is deliberately omitted. -/
def V2.SECTION_ITEMS_LEGACY : List (Int × List (Int × String)) := [
  (0, [(0, "version")]),
  (1, [(0, "9xdrv"), (1, "9xres"), (2, "9xddraw"), (3, "9xd3d"), (4, "9x3dfx"), (5, "9xmpu"), (6, "9xmaster"), (7, "9xwave"), (8, "9xmidi"), (9, "9xcd"), (10, "9xboot")]),
  (3, [(1, "machine"), (3, "memsize"), (4, "vmemsize")]),
  (6, [(0, "core"), (1, "cputype"), (2, "cycles"), (5, "isapnpbios"), (11, "apmbios")]),
  (19, [(0, "glide")]),
  (32, [(11, "cd-rom insertion delay")])]

/-- Global default value table keyed by sectionName_keyName (defaults.ts). -/
def WIN9X_DEFAULTS : List (String × String) := [
  ("sdl_fullscreen", "false"),
  ("sdl_fulldouble", "false"),
  ("sdl_fullresolution", "desktop"),
  ("sdl_windowresolution", "1024x768"),
  ("sdl_windowposition", ""),
  ("sdl_display", "0"),
  ("sdl_output", "opengl"),
  ("sdl_videodriver", ""),
  ("sdl_transparency", "0"),
  ("sdl_maximize", "false"),
  ("sdl_autolock", "true"),
  ("sdl_autolock_feedback", "none"),
  ("sdl_middle_unlock", "none"),
  ("sdl_clip_mouse_button", "none"),
  ("sdl_clip_key_modifier", "none"),
  ("sdl_clip_paste_bios", "default"),
  ("sdl_clip_paste_speed", "30"),
  ("sdl_sensitivity", "50"),
  ("sdl_usesystemcursor", "false"),
  ("sdl_mouse_emulation", "locked"),
  ("sdl_mouse_wheel_key", "-1"),
  ("sdl_waitonerror", "false"),
  ("sdl_priority", "higher"),
  ("sdl_mapperfile", "W9X-x.txt"),
  ("sdl_usescancodes", "false"),
  ("sdl_overscan", "0"),
  ("sdl_pixelshader", "none"),
  ("sdl_showbasic", "true"),
  ("sdl_showdetails", "false"),
  ("sdl_showmenu", "true"),
  ("log_logfile", ""),
  ("log_debuggerrun", "normal"),
  ("dosbox_language", ""),
  ("dosbox_fastbioslogo", "true"),
  ("dosbox_startbanner", "false"),
  ("dosbox_bannercolortheme", "default"),
  ("dosbox_dpi aware", "false"),
  ("dosbox_quit warning", "false"),
  ("dosbox_working directory option", "default"),
  ("dosbox_working directory default", ""),
  ("dosbox_show advanced options", "false"),
  ("dosbox_resolve config path", "true"),
  ("dosbox_hostkey", "mapper"),
  ("dosbox_mapper send key", "ctrlaltdel"),
  ("dosbox_ime", "auto"),
  ("dosbox_synchronize time", "false"),
  ("dosbox_machine", "svga_s3"),
  ("dosbox_captures", "dosbox"),
  ("dosbox_autosave", ""),
  ("dosbox_saveslot", "1"),
  ("dosbox_savefile", ""),
  ("dosbox_saveremark", "true"),
  ("dosbox_forceloadstate", "false"),
  ("dosbox_a20", "fast"),
  ("dosbox_memsize", "256"),
  ("dosbox_nocachedir", "false"),
  ("dosbox_freesizecap", "cap"),
  ("dosbox_convertdrivefat", "true"),
  ("dosbox_vmemsize", "4"),
  ("dosbox_vmemsizekb", "0"),
  ("render_frameskip", "0"),
  ("render_aspect", "true"),
  ("render_aspect_ratio", "0:0"),
  ("render_char9", "true"),
  ("render_euro", "-1"),
  ("render_doublescan", "true"),
  ("render_scaler", "hardware2x"),
  ("render_glshader", "none"),
  ("render_autofit", "true"),
  ("render_monochrome_pal", "green"),
  ("pc98_pc-98 BIOS copyright string", "true"),
  ("pc98_pc-98 fm board", "auto"),
  ("pc98_pc-98 enable 256-color", "true"),
  ("pc98_pc-98 enable 16-color", "true"),
  ("pc98_pc-98 enable grcg", "true"),
  ("pc98_pc-98 enable egc", "true"),
  ("pc98_pc-98 bus mouse", "true"),
  ("pc98_pc-98 force ibm keyboard layout", "false"),
  ("pc98_pc-98 try font rom", "true"),
  ("pc98_pc-98 anex86 font", ""),
  ("dosv_dosv", "off"),
  ("dosv_getsysfont", "true"),
  ("dosv_fontxsbcs", ""),
  ("dosv_fontxsbcs16", ""),
  ("dosv_fontxsbcs24", ""),
  ("dosv_fontxdbcs", ""),
  ("dosv_fontxdbcs14", ""),
  ("dosv_fontxdbcs24", ""),
  ("dosv_showdbcsnodosv", "true"),
  ("dosv_yen", "false"),
  ("dosv_fepcontrol", "ias"),
  ("dosv_vtext1", "svga"),
  ("dosv_vtext2", "svga"),
  ("dosv_use20pixelfont", "false"),
  ("dosv_j3100", "off"),
  ("dosv_j3100type", "default"),
  ("dosv_j3100colorscroll", "false"),
  ("video_high intensity blinking", "true"),
  ("vsync_vsyncmode", "off"),
  ("vsync_vsyncrate", "75"),
  ("cpu_core", "dynamic"),
  ("cpu_fpu", "true"),
  ("cpu_segment limits", "true"),
  ("cpu_cputype", "pentium"),
  ("cpu_cycles", "max"),
  ("cpu_cycleup", "150"),
  ("cpu_cycledown", "100"),
  ("cpu_turbo", "false"),
  ("cpu_apmbios", "false"),
  ("cpu_integration device", "false"),
  ("cpu_isapnpbios", "false"),
  ("keyboard_aux", "false"),
  ("keyboard_allow output port reset", "true"),
  ("keyboard_controllertype", "auto"),
  ("keyboard_auxdevice", "intellimouse"),
  ("ttf_font", ""),
  ("ttf_fontbold", ""),
  ("ttf_fontital", ""),
  ("ttf_fontboit", ""),
  ("ttf_colors", ""),
  ("ttf_outputswitch", "auto"),
  ("ttf_winperc", "60"),
  ("ttf_ptsize", "0"),
  ("ttf_lins", "0"),
  ("ttf_cols", "0"),
  ("ttf_righttoleft", "false"),
  ("ttf_wp", ""),
  ("ttf_bold", "true"),
  ("ttf_italic", "true"),
  ("ttf_underline", "true"),
  ("ttf_strikeout", "false"),
  ("ttf_printfont", "true"),
  ("ttf_autodbcs", "true"),
  ("ttf_blinkc", "true"),
  ("ttf_gbk", "false"),
  ("ttf_chinasea", "false"),
  ("ttf_dosvfunc", "false"),
  ("voodoo_voodoo_card", "false"),
  ("voodoo_voodoo_maxmem", "4"),
  ("voodoo_glide", "emu"),
  ("voodoo_lfb", "full"),
  ("voodoo_splash", "false"),
  ("mixer_nosound", "false"),
  ("mixer_sample accurate", "false"),
  ("mixer_swapstereo", "false"),
  ("mixer_rate", "44100"),
  ("mixer_blocksize", "1024"),
  ("mixer_prebuffer", "20"),
  ("midi_mpu401", "intelligent"),
  ("midi_mpubase", "330"),
  ("midi_mididevice", "default"),
  ("midi_midiconfig", ""),
  ("midi_samplerate", "44100"),
  ("midi_mpuirq", "-1"),
  ("midi_mt32.romdir", ""),
  ("midi_mt32.model", "auto"),
  ("midi_fluid.driver", "default"),
  ("midi_fluid.soundfont", ""),
  ("sblaster_sbtype", "sb16"),
  ("sblaster_sbbase", "220"),
  ("sblaster_irq", "7"),
  ("sblaster_dma", "1"),
  ("sblaster_hdma", "5"),
  ("sblaster_enable speaker", "false"),
  ("sblaster_sbmixer", "true"),
  ("sblaster_oplmode", "auto"),
  ("sblaster_oplemu", "default"),
  ("sblaster_oplrate", "44100"),
  ("sblaster_oplport", ""),
  ("sblaster_retrowave_bus", "serial"),
  ("sblaster_retrowave_port", ""),
  ("sblaster_hardwarebase", "220"),
  ("sblaster_goldplay", "false"),
  ("sblaster_blaster environment variable", "true"),
  ("gus_gus", "true"),
  ("gus_gusrate", "44100"),
  ("gus_gusmemsize", "-1"),
  ("gus_gus master volume", "100"),
  ("gus_gusbase", "240"),
  ("gus_gusirq", "5"),
  ("gus_gusdma", "3"),
  ("gus_gustype", "classic"),
  ("gus_ultradir", "C:\\ULTRASND"),
  ("innova_innova", "false"),
  ("innova_samplerate", "22050"),
  ("innova_sidbase", "280"),
  ("innova_quality", "0"),
  ("speaker_pcspeaker", "true"),
  ("speaker_pcrate", "44100"),
  ("speaker_tandy", "off"),
  ("speaker_tandyrate", "44100"),
  ("speaker_disney", "false"),
  ("speaker_ps1audio", "false"),
  ("speaker_ps1audiorate", "22050"),
  ("joystick_joysticktype", "none"),
  ("joystick_timed", "true"),
  ("joystick_autofire", "false"),
  ("joystick_swap34", "false"),
  ("joystick_buttonwrap", "false"),
  ("mapper_joy1deadzone0-", "0.60"),
  ("mapper_joy1deadzone0+", "0.60"),
  ("mapper_joy1deadzone1-", "0.60"),
  ("mapper_joy1deadzone1+", "0.60"),
  ("mapper_joy1deadzone2-", "0.60"),
  ("mapper_joy1deadzone2+", "0.60"),
  ("mapper_joy1deadzone3-", "0.60"),
  ("mapper_joy1deadzone3+", "0.60"),
  ("mapper_joy1deadzone4-", "0.60"),
  ("mapper_joy1deadzone4+", "0.60"),
  ("mapper_joy1deadzone5-", "0.60"),
  ("mapper_joy1deadzone5+", "0.60"),
  ("mapper_joy1deadzone6-", "0.60"),
  ("mapper_joy1deadzone6+", "0.60"),
  ("mapper_joy1deadzone7-", "0.60"),
  ("mapper_joy1deadzone7+", "0.60"),
  ("mapper_joy2deadzone0-", "0.60"),
  ("mapper_joy2deadzone0+", "0.60"),
  ("mapper_joy2deadzone1-", "0.60"),
  ("mapper_joy2deadzone1+", "0.60"),
  ("mapper_joy2deadzone2-", "0.60"),
  ("mapper_joy2deadzone2+", "0.60"),
  ("mapper_joy2deadzone3-", "0.60"),
  ("mapper_joy2deadzone3+", "0.60"),
  ("mapper_joy2deadzone4-", "0.60"),
  ("mapper_joy2deadzone4+", "0.60"),
  ("mapper_joy2deadzone5-", "0.60"),
  ("mapper_joy2deadzone5+", "0.60"),
  ("mapper_joy2deadzone6-", "0.60"),
  ("mapper_joy2deadzone6+", "0.60"),
  ("mapper_joy2deadzone7-", "0.60"),
  ("mapper_joy2deadzone7+", "0.60"),
  ("serial_serial1", "dummy"),
  ("serial_serial2", "dummy"),
  ("serial_serial3", "disabled"),
  ("serial_serial4", "disabled"),
  ("serial_serial5", "disabled"),
  ("serial_serial6", "disabled"),
  ("serial_serial7", "disabled"),
  ("serial_serial8", "disabled"),
  ("serial_serial9", "disabled"),
  ("serial_phonebookfile", "phonebook.txt"),
  ("parallel_parallel1", "disabled"),
  ("parallel_parallel2", "disabled"),
  ("parallel_parallel3", "disabled"),
  ("parallel_parallel4", "disabled"),
  ("parallel_parallel5", "disabled"),
  ("parallel_parallel6", "disabled"),
  ("parallel_parallel7", "disabled"),
  ("parallel_parallel8", "disabled"),
  ("parallel_parallel9", "disabled"),
  ("parallel_dongle", "false"),
  ("printer_printer", "false"),
  ("printer_dpi", "360"),
  ("printer_width", "85"),
  ("printer_height", "110"),
  ("printer_printoutput", "png"),
  ("printer_multipage", "false"),
  ("printer_device", ""),
  ("printer_docpath", "."),
  ("printer_fontpath", ""),
  ("printer_openwith", ""),
  ("printer_openerror", "false"),
  ("printer_printdbcs", "true"),
  ("printer_shellhide", "true"),
  ("printer_timeout", "0"),
  ("dos_xms", "true"),
  ("dos_xms handles", "0"),
  ("dos_shell configuration as commands", "true"),
  ("dos_hma", "true"),
  ("dos_hard drive data rate limit", "-1"),
  ("dos_floppy drive data rate limit", "0"),
  ("dos_ansi.sys", "true"),
  ("dos_log console", "false"),
  ("dos_share", "true"),
  ("dos_file access tries", "3"),
  ("dos_network redirector", "true"),
  ("dos_minimum mcb free", "0"),
  ("dos_ems", "true"),
  ("dos_umb", "true"),
  ("dos_quick reboot", "false"),
  ("dos_ver", "auto"),
  ("dos_lfn", "auto"),
  ("dos_fat32setversion", "ask"),
  ("dos_shellhigh", "auto"),
  ("dos_automount", "true"),
  ("dos_automountall", "true"),
  ("dos_mountwarning", "true"),
  ("dos_autofixwarning", "false"),
  ("dos_startcmd", "false"),
  ("dos_starttranspath", "true"),
  ("dos_startwait", "true"),
  ("dos_startquiet", "false"),
  ("dos_vmware", "true"),
  ("dos_int33", "true"),
  ("dos_keyboardlayout", "auto"),
  ("dos_customcodepage", ""),
  ("dos_dbcs", "true"),
  ("dos_dos clipboard device enable", "false"),
  ("dos_dos clipboard device name", "CLIP$"),
  ("dos_dos clipboard api", "true"),
  ("ipx_ipx", "false"),
  ("ne2000_ne2000", "false"),
  ("ne2000_nicbase", "300"),
  ("ne2000_nicirq", "3"),
  ("ne2000_macaddr", "AC:DE:48:88:99:AA"),
  ("ne2000_backend", "auto"),
  ("ethernet, pcap_realnic", ""),
  ("ethernet, pcap_timeout", "0"),
  ("ethernet, slirp_ipv4_network", ""),
  ("ethernet, slirp_ipv4_netmask", ""),
  ("ethernet, slirp_ipv4_host", ""),
  ("ethernet, slirp_ipv4_nameserver", ""),
  ("ethernet, slirp_ipv4_dhcp_start", ""),
  ("ide, primary_enable", "true"),
  ("ide, primary_pnp", "false"),
  ("ide, secondary_enable", "true"),
  ("ide, secondary_pnp", "false"),
  ("ide, tertiary_enable", "false"),
  ("ide, tertiary_pnp", "false"),
  ("ide, quaternary_enable", "false"),
  ("ide, quaternary_pnp", "false"),
  ("ide, quinternary_enable", "false"),
  ("ide, quinternary_pnp", "false"),
  ("ide, sexternary_enable", "false"),
  ("ide, sexternary_pnp", "false"),
  ("ide, septernary_enable", "false"),
  ("ide, septernary_pnp", "false"),
  ("ide, octernary_enable", "false"),
  ("ide, octernary_pnp", "false"),
  ("fdc, primary_enable", "true"),
  ("fdc, primary_pnp", "false"),
  ("fdc, primary_mode", "ps2"),
  ("4dos_rem", ""),
  ("config_rem", ""),
  ("config_break", "true"),
  ("config_numlock", ""),
  ("config_shell", ""),
  ("config_dos", "high"),
  ("config_fcbs", "100"),
  ("config_files", "127"),
  ("config_country", ""),
  ("config_lastdrive", "z"),
  ("config_install", ""),
  ("config_installhigh", ""),
  ("config_device", ""),
  ("config_devicehigh", "")]

/-! ## Entry parser (src/services/dosbox-settings.ts) -/

/-- Loop body of parseEditConfVersion: first trimmed line starting with
`ver.` decides the version; dots are stripped and the rest parseInt-ed,
NaN falling back to 0; no marker line also yields 0. -/
def parseEditConfVersionAux : List (List Char) → Int
  | [] => 0
  | l :: rest =>
    let t := jsTrimList l
    if "ver.".data.isPrefixOf t then
      match jsParseIntList ((t.drop 4).filter (fun c => c != '.')) with
      | none => 0
      | some v => v
    else parseEditConfVersionAux rest

/-- parseEditConfVersion: parse the `ver.YY.MM.DD` marker of an edit.conf
file into the integer YYMMDD. -/
def parseEditConfVersion (content : String) : Int :=
  parseEditConfVersionAux (splitCh '\n' content.data)

/-- isLegacyVersion: versions below 220000 (ver.22.00.00) use the legacy
schema. -/
def isLegacyVersion (version : Int) : Bool :=
  version < 220000

/-- Loop body of parseEditConf for one raw line: trim; skip version marker
and blank lines; split on the pipe; accept when at least 3 parts and the
first two parseInt to numbers; the value is the remaining parts rejoined. -/
def parseEditConfLine (l : List Char) : Option EditConfEntry :=
  let t := jsTrimList l
  if "ver.".data.isPrefixOf t || t.isEmpty then none
  else
    let parts := splitCh '|' t
    if parts.length ≥ 3 then
      match jsParseIntList (parts.headD []), jsParseIntList ((parts.drop 1).headD []) with
      | some sec, some it =>
        some ⟨sec, it, String.mk (joinCh '|' (parts.drop 2))⟩
      | _, _ => none
    else none

/-- parseEditConf: parse edit.conf content into its accepted entries. -/
def parseEditConf (content : String) : List EditConfEntry :=
  (splitCh '\n' content.data).foldl
    (fun acc l =>
      match parseEditConfLine l with
      | some e => acc ++ [e]
      | none => acc)
    []

/-! ## Settings resolver -/

/-- The schema lookup performed for each entry by convertEditConfToSettings:
section name, items map and key name in turn, falsy (empty) names rejected. -/
def schemaKeyFor (secTab : List (Int × String))
    (itemTab : List (Int × List (Int × String))) (sec it : Int) :
    Option (String × String) :=
  match alookup secTab sec with
  | none => none
  | some sectionName =>
    if sectionName == "" then none
    else
      match alookup itemTab sec with
      | none => none
      | some itemsMap =>
        match alookup itemsMap it with
        | none => none
        | some keyName =>
          if keyName == "" then none else some (sectionName, keyName)

/-- Resolution loop of convertEditConfToSettings over a fixed table pair:
unknown addresses are skipped, known ones inserted. -/
def convertWith (secTab : List (Int × String))
    (itemTab : List (Int × List (Int × String)))
    (entries : List EditConfEntry) : DosboxSettings :=
  entries.foldl
    (fun acc e =>
      match schemaKeyFor secTab itemTab e.sectionIdx e.itemIdx with
      | none => acc
      | some (sectionName, keyName) => setIn acc sectionName keyName e.value)
    []

/-- convertEditConfToSettings of src/services/dosbox-settings.ts: resolve
entries against that module's version-selected tables. -/
def convertEditConfToSettings (entries : List EditConfEntry) (isLegacy : Bool) :
    DosboxSettings :=
  convertWith (if isLegacy then SECTION_INDEX_LEGACY else SECTION_INDEX)
    (if isLegacy then SECTION_ITEMS_LEGACY else SECTION_ITEMS) entries

/-- convertEditConfToSettings of the revised dosbox-settings module: the
current tables come from the Option.dat mapper, the legacy tables omit
section 21. -/
def V2.convertEditConfToSettings (entries : List EditConfEntry) (isLegacy : Bool) :
    DosboxSettings :=
  convertWith (if isLegacy then V2.SECTION_INDEX_LEGACY else OptionDat.SECTION_NAMES)
    (if isLegacy then V2.SECTION_ITEMS_LEGACY else OptionDat.SECTION_ITEMS) entries

/-- getKeyForEditConfEntry of option-dat.ts. -/
def OptionDat.getKeyForEditConfEntry (sec it : Int) : Option (String × String) :=
  match alookup OptionDat.SECTION_NAMES sec with
  | none => none
  | some sectionName =>
    if sectionName == "" then none
    else
      match alookup OptionDat.SECTION_ITEMS sec with
      | none => none
      | some items =>
        match alookup items it with
        | none => none
        | some keyName =>
          if keyName == "" then none else some (sectionName, keyName)

/-- Inner loop of mergeSettings for one override section. -/
def setAll (a : DosboxSettings) (s : String) (items : List (String × String)) :
    DosboxSettings :=
  items.foldl (fun acc kv => setIn acc s kv.1 kv.2) a

/-- mergeSettings: deep-copy base (the identity in this pure model), then
write every override section/key over it. -/
def mergeSettings (base override : DosboxSettings) : DosboxSettings :=
  override.foldl (fun acc p => setAll (ensureSec acc p.1) p.1 p.2) base

/-! ## Win9x extension resolver -/

/-- A guest display resolution. -/
structure Resolution where
  width : Nat
  height : Nat
  bitsPerPixel : Nat
deriving Repr, DecidableEq

/-- The four win9x mixer volumes. -/
structure Win9xVolumes where
  master : Int
  wave : Int
  midi : Int
  cd : Int
deriving Repr, DecidableEq

/-- Win9xSettings of dosbox-settings.ts (same shape as the
Win9xDisplaySettings interface of dosbox-template.ts). -/
structure Win9xSettings where
  resolution : Resolution
  ddraw : Bool
  d3d : Bool
  threeDfx : Bool
  midiDriver : String
  volumes : Win9xVolumes
deriving Repr, DecidableEq

/-- The fixed width-to-height table of parse9xResolution. -/
def heightMap : List (Nat × Nat) :=
  [(640, 480), (800, 600), (1024, 768), (1152, 864), (1280, 960), (1600, 1200)]

/-- `heightMap[width] || 480`. -/
def heightForWidth (w : Nat) : Nat :=
  jsOrNat (alookup heightMap w) 480

/-- Leftmost match of the regex `(\d+)x(\d+)`: the two digit runs, or none. -/
def scanRes : List Char → Option (List Char × List Char)
  | [] => none
  | c :: rest =>
    if c.isDigit then
      match rest.dropWhile Char.isDigit with
      | x :: rest2 =>
        if x == 'x' then
          let d2 := rest2.takeWhile Char.isDigit
          if d2.isEmpty then scanRes rest
          else some (c :: rest.takeWhile Char.isDigit, d2)
        else scanRes rest
      | [] => scanRes rest
    else scanRes rest

/-- parse9xResolution: read `{width}x{bitsPerPixel}` out of a 9xres value,
deriving the height from the width table; unmatched input falls back to
640x480x8. -/
def parse9xResolution (value : String) : Resolution :=
  match scanRes value.data with
  | none => ⟨640, 480, 8⟩
  | some (d1, d2) => ⟨digitsVal d1, heightForWidth (digitsVal d1), digitsVal d2⟩

/-- The built-in defaults of extractWin9xSettings. -/
def win9xDefaults : Win9xSettings :=
  ⟨⟨640, 480, 8⟩, true, true, true, "SBFM", ⟨255, 255, 255, 128⟩⟩

/-- Loop body of extractWin9xSettings: the legacy section-21 item-1 alias is
special-cased ahead of the ordinary section-1 slots. -/
def win9xStep (isLegacy : Bool) (s : Win9xSettings) (e : EditConfEntry) :
    Win9xSettings :=
  if isLegacy && e.sectionIdx == 21 && e.itemIdx == 1 then
    { s with resolution := parse9xResolution e.value }
  else if e.sectionIdx != 1 then s
  else if e.itemIdx == 1 then { s with resolution := parse9xResolution e.value }
  else if e.itemIdx == 2 then { s with ddraw := e.value == "true" }
  else if e.itemIdx == 3 then { s with d3d := e.value == "true" }
  else if e.itemIdx == 4 then { s with threeDfx := e.value == "true" }
  else if e.itemIdx == 5 then
    { s with midiDriver := if e.value == "MPU401" then "MPU401" else "SBFM" }
  else if e.itemIdx == 6 then
    { s with volumes := { s.volumes with master := jsOrInt (jsParseInt e.value) 255 } }
  else if e.itemIdx == 7 then
    { s with volumes := { s.volumes with wave := jsOrInt (jsParseInt e.value) 255 } }
  else if e.itemIdx == 8 then
    { s with volumes := { s.volumes with midi := jsOrInt (jsParseInt e.value) 255 } }
  else if e.itemIdx == 9 then
    { s with volumes := { s.volumes with cd := jsOrInt (jsParseInt e.value) 128 } }
  else s

/-- extractWin9xSettings: fold the entries over the built-in defaults. -/
def extractWin9xSettings (entries : List EditConfEntry) (isLegacy : Bool) :
    Win9xSettings :=
  entries.foldl (win9xStep isLegacy) win9xDefaults

/-! ## Config document assembler -/

/-- The reserved pseudo-sections skipped by settingsToConfString. -/
def isPseudoSection (s : String) : Bool :=
  s == "default" || s == "win9x" || s == "pcem" || s == "separator"

/-- The line list pushed by settingsToConfString: a `[section]` header, the
`key=value` lines and a blank line per non-pseudo section. -/
def confLines : DosboxSettings → List String
  | [] => []
  | p :: rest =>
    (if isPseudoSection p.1 then []
     else ("[" ++ p.1 ++ "]") :: p.2.map (fun kv => kv.1 ++ "=" ++ kv.2) ++ [""]) ++
    confLines rest

/-- settingsToConfString: serialize the settings map, skipping pseudo
sections. -/
def settingsToConfString (settings : DosboxSettings) : String :=
  String.intercalate "\n" (confLines settings)

/-- generateDosboxConf: optional header, serialized sections, then the
`[autoexec]` block, joined and trimmed. -/
def generateDosboxConf (settings : DosboxSettings) (autoexec : String)
    (header : Option String) : String :=
  let headerLines : List String :=
    match header with
    | some h => if h == "" then [] else [h, ""]
    | none => []
  jsTrim (String.intercalate "\n"
    (headerLines ++ [settingsToConfString settings, "[autoexec]", autoexec]))

/-- Does the needle occur as a contiguous run of the haystack? -/
def listContains : List Char → List Char → Bool
  | [], needle => needle.isEmpty
  | c :: rest, needle => needle.isPrefixOf (c :: rest) || listContains rest needle

/-- Substring test (JS String.prototype.includes). -/
def strContains (s sub : String) : Bool :=
  listContains s.data sub.data

/-- Suffix test (JS String.prototype.endsWith). -/
def strEndsWith (s suf : String) : Bool :=
  suf.data.reverse.isPrefixOf s.data.reverse

/-! ## Template engine (dosbox-template.ts, defaults.ts) -/

/-- getDefaultValue of defaults.ts: `WIN9X_DEFAULTS[key] ?? ''`. -/
def getDefaultValue (key : String) : String :=
  match alookup WIN9X_DEFAULTS key with
  | some v => v
  | none => ""

/-- Scanner state machine behind `template.replace(/@([^@]+)@/g, f)`.
With state `none` it copies characters until an `@` opens a candidate
token; with state `some acc` it accumulates (reversed) token characters
until the closing `@`.  A nonempty token between two `@`s is replaced by
`f token`; `@@` yields no match, so the first `@` is copied and the second
reopens a candidate; an unclosed `@` leaves the tail untouched.  This is
the leftmost, non-overlapping global match order of the JS regex. -/
def substAux (f : String → String) : Option (List Char) → List Char → List Char
  | none, [] => []
  | none, c :: rest =>
    if c == '@' then substAux f (some []) rest else c :: substAux f none rest
  | some acc, [] => '@' :: acc.reverse
  | some [], c :: rest =>
    if c == '@' then '@' :: substAux f (some []) rest
    else substAux f (some [c]) rest
  | some (a :: as), c :: rest =>
    if c == '@' then (f (String.mk (a :: as).reverse)).data ++ substAux f none rest
    else substAux f (some (c :: a :: as)) rest

/-- One global pass of `template.replace(/@([^@]+)@/g, f)`: each leftmost
`@token@` occurrence (token nonempty, no `@` inside) is replaced by `f token`. -/
def substTokens (f : String → String) (cs : List Char) : List Char :=
  substAux f none cs

/-- applyValuesToTemplate generalised over the compiled-in default table:
defaults are loaded into the merged map first, the supplied values override
them, and each placeholder resolves through the merged map with a final
getDefaultValue / empty-string fallback. -/
def applyValuesToTemplateCore (defaults : List (String × String))
    (template : String) (values : List (String × String)) : String :=
  let mergedValues := values.foldl (fun acc kv => setKV acc kv.1 kv.2) defaults
  String.mk (substTokens
    (fun tok =>
      match alookup mergedValues tok with
      | some v => v
      | none =>
        let d := match alookup defaults tok with
          | some dv => dv
          | none => ""
        if d != "" then d else "")
    template.data)

/-- applyValuesToTemplate of dosbox-template.ts, over the global
WIN9X_DEFAULTS table. -/
def applyValuesToTemplate (template : String) (values : List (String × String)) :
    String :=
  applyValuesToTemplateCore WIN9X_DEFAULTS template values

/-- Truthy read out of the values map (`if (v)` on a looked-up string). -/
def getTruthy (values : List (String × String)) (k : String) : Option String :=
  match alookup values k with
  | some v => if v == "" then none else some v
  | none => none

/-- extractWin9xDisplaySettings of dosbox-template.ts: read the nine
win9x_* keys out of a flattened values map over the same defaults. -/
def extractWin9xDisplaySettings (values : List (String × String)) : Win9xSettings :=
  let s0 := win9xDefaults
  let s1 := match getTruthy values "win9x_9xres" with
    | some v => { s0 with resolution := parse9xResolution v }
    | none => s0
  let s2 := match getTruthy values "win9x_9xddraw" with
    | some v => { s1 with ddraw := v == "true" }
    | none => s1
  let s3 := match getTruthy values "win9x_9xd3d" with
    | some v => { s2 with d3d := v == "true" }
    | none => s2
  let s4 := match getTruthy values "win9x_9x3dfx" with
    | some v => { s3 with threeDfx := v == "true" }
    | none => s3
  let s5 := match getTruthy values "win9x_9xmpu" with
    | some v => { s4 with midiDriver := if v == "MPU401" then "MPU401" else "SBFM" }
    | none => s4
  let s6 := match getTruthy values "win9x_9xmaster" with
    | some v => { s5 with volumes := { s5.volumes with master := jsOrInt (jsParseInt v) 255 } }
    | none => s5
  let s7 := match getTruthy values "win9x_9xwave" with
    | some v => { s6 with volumes := { s6.volumes with wave := jsOrInt (jsParseInt v) 255 } }
    | none => s6
  let s8 := match getTruthy values "win9x_9xmidi" with
    | some v => { s7 with volumes := { s7.volumes with midi := jsOrInt (jsParseInt v) 255 } }
    | none => s7
  let s9 := match getTruthy values "win9x_9xcd" with
    | some v => { s8 with volumes := { s8.volumes with cd := jsOrInt (jsParseInt v) 128 } }
    | none => s8
  s9


/-! ## Association-list lemmas -/

theorem alookup_cons {κ α : Type} [BEq κ] (p : κ × α) (rest : List (κ × α)) (k : κ) :
    alookup (p :: rest) k = if p.1 == k then some p.2 else alookup rest k := rfl

theorem setKV_alookup_self {κ α : Type} [BEq κ] [LawfulBEq κ]
    (m : List (κ × α)) (k : κ) (v : α) : alookup (setKV m k v) k = some v := by
  induction m with
  | nil => simp [setKV, alookup]
  | cons p rest ih =>
    by_cases h : p.1 == k
    · simp [setKV, h, alookup]
    · simp [setKV, h, alookup, ih]

theorem setKV_alookup_ne {κ α : Type} [BEq κ] [LawfulBEq κ]
    (m : List (κ × α)) (k : κ) (v : α) (q : κ) (h : q ≠ k) :
    alookup (setKV m k v) q = alookup m q := by
  have hkq : ¬ (k == q) = true := by
    simp only [beq_iff_eq]
    exact fun hh => h hh.symm
  induction m with
  | nil => simp [setKV, alookup, hkq]
  | cons p rest ih =>
    by_cases h2 : p.1 == k
    · have hpk : p.1 = k := by simpa using h2
      have hpq : ¬ (p.1 == q) = true := by
        simp only [beq_iff_eq, hpk]
        exact fun hh => h hh.symm
      rw [setKV, if_pos h2, alookup_cons, alookup_cons, if_neg hkq, if_neg hpq]
    · by_cases h3 : p.1 == q
      · rw [setKV, if_neg h2, alookup_cons, alookup_cons, if_pos h3, if_pos h3]
      · rw [setKV, if_neg h2, alookup_cons, alookup_cons, if_neg h3, if_neg h3, ih]

theorem alookup_isSome_iff_mem {κ α : Type} [BEq κ] [LawfulBEq κ]
    (m : List (κ × α)) (k : κ) :
    (alookup m k).isSome ↔ k ∈ m.map Prod.fst := by
  induction m with
  | nil => simp [alookup]
  | cons p rest ih =>
    by_cases h : p.1 == k
    · have : p.1 = k := by simpa using h
      simp [alookup, h, this]
    · have : ¬ p.1 = k := by simpa using h
      simp [alookup, h, ih, this]
      intro hk
      exact absurd hk.symm this

theorem alookup_eq_none_of_not_mem {κ α : Type} [BEq κ] [LawfulBEq κ]
    (m : List (κ × α)) (k : κ) (h : k ∉ m.map Prod.fst) : alookup m k = none := by
  have := (alookup_isSome_iff_mem m k).not.mpr h
  cases halookup : alookup m k with
  | none => rfl
  | some v => rw [halookup] at this; simp at this

/-! ## Lemmas about nested settings-map updates -/

theorem lookup2_cons (p : String × List (String × String)) (rest : DosboxSettings)
    (s k : String) :
    lookup2 (p :: rest) s k = if p.1 == s then alookup p.2 k else lookup2 rest s k := by
  by_cases h : p.1 == s <;> simp [lookup2, alookup, h]

theorem lookup2_eq_none_of_not_mem (m : DosboxSettings) (s k : String)
    (h : s ∉ m.map Prod.fst) : lookup2 m s k = none := by
  simp [lookup2, alookup_eq_none_of_not_mem m s h]

theorem ensureSec_lookup2 (m : DosboxSettings) (s s' k : String) :
    lookup2 (ensureSec m s) s' k = lookup2 m s' k := by
  induction m with
  | nil => by_cases h : s == s' <;> simp [ensureSec, lookup2, alookup, h]
  | cons p rest ih =>
    by_cases h : p.1 == s
    · simp [ensureSec, h]
    · rw [ensureSec, if_neg (by simp_all), lookup2_cons, lookup2_cons, ih]

theorem setIn_lookup2_self (m : DosboxSettings) (s k v : String) :
    lookup2 (setIn m s k v) s k = some v := by
  induction m with
  | nil => simp [setIn, lookup2, alookup, setKV]
  | cons p rest ih =>
    by_cases h : p.1 == s
    · rw [setIn, if_pos h, lookup2_cons]
      simp [setKV_alookup_self]
    · rw [setIn, if_neg (by simp_all), lookup2_cons, if_neg h, ih]

theorem setIn_lookup2_sec_ne (m : DosboxSettings) (s k v s' k' : String)
    (h : s' ≠ s) : lookup2 (setIn m s k v) s' k' = lookup2 m s' k' := by
  have hss : ¬ (s == s') = true := by
    simp only [beq_iff_eq]
    exact fun hh => h hh.symm
  induction m with
  | nil => rw [setIn, lookup2_cons, if_neg hss]
  | cons p rest ih =>
    by_cases h2 : p.1 == s
    · have hps : p.1 = s := by simpa using h2
      have hps' : ¬ (p.1 == s') = true := by
        simp only [beq_iff_eq, hps]
        exact fun hh => h hh.symm
      rw [setIn, if_pos h2, lookup2_cons, lookup2_cons, if_neg hss, if_neg hps']
    · rw [setIn, if_neg (by simp_all), lookup2_cons, lookup2_cons, ih]

theorem setIn_lookup2_key_ne (m : DosboxSettings) (s k v k' : String)
    (h : k' ≠ k) : lookup2 (setIn m s k v) s k' = lookup2 m s k' := by
  induction m with
  | nil =>
    simp [setIn, lookup2, alookup, h]
    exact fun hh => h hh.symm
  | cons p rest ih =>
    by_cases h2 : p.1 == s
    · rw [setIn, if_pos h2, lookup2_cons, lookup2_cons]
      simp [h2, setKV_alookup_ne p.2 k v k' h]
    · rw [setIn, if_neg (by simp_all), lookup2_cons, lookup2_cons, ih]


theorem setAll_lookup2_ne (items : List (String × String)) (a : DosboxSettings)
    (s s' k' : String) (h : s' ≠ s) :
    lookup2 (setAll a s items) s' k' = lookup2 a s' k' := by
  induction items generalizing a with
  | nil => rfl
  | cons kv rest ih =>
    simp only [setAll, List.foldl_cons] at ih ⊢
    rw [ih, setIn_lookup2_sec_ne _ _ _ _ _ _ h]

theorem setAll_lookup2_self (items : List (String × String)) (a : DosboxSettings)
    (s k : String) (hnd : (items.map Prod.fst).Nodup) :
    lookup2 (setAll a s items) s k =
      match alookup items k with
      | some v => some v
      | none => lookup2 a s k := by
  induction items generalizing a with
  | nil => rfl
  | cons kv rest ih =>
    rw [List.map_cons, List.nodup_cons] at hnd
    simp only [setAll, List.foldl_cons] at ih ⊢
    rw [ih _ hnd.2]
    by_cases hk : kv.1 == k
    · have hk' : kv.1 = k := by simpa using hk
      have hrest : alookup rest k = none := by
        apply alookup_eq_none_of_not_mem
        rw [← hk']
        exact hnd.1
      rw [alookup_cons, if_pos hk, hrest, ← hk', setIn_lookup2_self]
    · have hk' : ¬ k = kv.1 := by
        intro hh
        exact hk (by simp [hh])
      rw [alookup_cons, if_neg hk, setIn_lookup2_key_ne _ _ _ _ _ hk']

theorem mergeSettings_cons (base : DosboxSettings)
    (p : String × List (String × String)) (rest : List (String × List (String × String))) :
    mergeSettings base (p :: rest) =
      mergeSettings (setAll (ensureSec base p.1) p.1 p.2) rest := rfl

theorem mergeSettings_lookup2 (base override : DosboxSettings) (s k : String)
    (hnd1 : (override.map Prod.fst).Nodup)
    (hnd2 : ∀ p ∈ override, (p.2.map Prod.fst).Nodup) :
    lookup2 (mergeSettings base override) s k =
      match lookup2 override s k with
      | some v => some v
      | none => lookup2 base s k := by
  induction override generalizing base with
  | nil => rfl
  | cons p rest ih =>
    rw [List.map_cons, List.nodup_cons] at hnd1
    rw [mergeSettings_cons, ih _ hnd1.2 (fun q hq => hnd2 q (List.mem_cons_of_mem _ hq))]
    by_cases hs : p.1 == s
    · have hs' : p.1 = s := by simpa using hs
      have hrest : lookup2 rest s k = none := by
        apply lookup2_eq_none_of_not_mem
        rw [← hs']
        exact hnd1.1
      rw [hrest, lookup2_cons, if_pos hs, ← hs',
        setAll_lookup2_self _ _ _ _ (hnd2 p (List.mem_cons_self _ _)), ensureSec_lookup2]
    · have hs' : s ≠ p.1 := by
        intro hh
        exact hs (by simp [hh])
      rw [lookup2_cons, if_neg hs, setAll_lookup2_ne _ _ _ _ _ hs', ensureSec_lookup2]

/-! ## Resolver skip lemma -/

theorem convertWith_skip (secTab : List (Int × String))
    (itemTab : List (Int × List (Int × String))) (e : EditConfEntry)
    (pre post : List EditConfEntry)
    (h : schemaKeyFor secTab itemTab e.sectionIdx e.itemIdx = none) :
    convertWith secTab itemTab (pre ++ e :: post) =
      convertWith secTab itemTab (pre ++ post) := by
  rw [convertWith, convertWith, List.foldl_append, List.foldl_append, List.foldl_cons, h]


/-! ## Win9x extraction lemmas -/

theorem win9xStep_legacy_res (s : Win9xSettings) (v : String) :
    win9xStep true s ⟨21, 1, v⟩ = { s with resolution := parse9xResolution v } := by
  simp [win9xStep]

theorem extractWin9x_legacy_res_last (pre : List EditConfEntry) (v : String) :
    (extractWin9xSettings (pre ++ [⟨21, 1, v⟩]) true).resolution =
      parse9xResolution v := by
  rw [extractWin9xSettings, List.foldl_append, List.foldl_cons, List.foldl_nil,
    win9xStep_legacy_res]

theorem win9xStep_master (legacy : Bool) (s : Win9xSettings) (e : EditConfEntry)
    (h : e.sectionIdx = 1 → e.itemIdx = 6 →
      jsParseInt e.value = none ∨ jsParseInt e.value = some 0)
    (hdef : s.volumes.master = 255) :
    (win9xStep legacy s e).volumes.master = 255 := by
  rcases e with ⟨sec, item, v⟩
  simp only [win9xStep]
  by_cases hA : (legacy && sec == 21 && item == 1) = true
  · rw [if_pos hA]; simpa using hdef
  rw [if_neg hA]
  by_cases hB : (sec != 1) = true
  · rw [if_pos hB]; exact hdef
  rw [if_neg hB]
  have hsec : sec = 1 := by simpa using hB
  by_cases h1 : (item == 1) = true
  · rw [if_pos h1]; simpa using hdef
  rw [if_neg h1]
  by_cases h2 : (item == 2) = true
  · rw [if_pos h2]; simpa using hdef
  rw [if_neg h2]
  by_cases h3 : (item == 3) = true
  · rw [if_pos h3]; simpa using hdef
  rw [if_neg h3]
  by_cases h4 : (item == 4) = true
  · rw [if_pos h4]; simpa using hdef
  rw [if_neg h4]
  by_cases h5 : (item == 5) = true
  · rw [if_pos h5]; simpa using hdef
  rw [if_neg h5]
  by_cases h6 : (item == 6) = true
  · rw [if_pos h6]
    have hit : item = 6 := by simpa using h6
    rcases h hsec hit with hz | hz <;> simp [jsOrInt, hz]
  rw [if_neg h6]
  by_cases h7 : (item == 7) = true
  · rw [if_pos h7]; simpa using hdef
  rw [if_neg h7]
  by_cases h8 : (item == 8) = true
  · rw [if_pos h8]; simpa using hdef
  rw [if_neg h8]
  by_cases h9 : (item == 9) = true
  · rw [if_pos h9]; simpa using hdef
  rw [if_neg h9]
  exact hdef

theorem win9xStep_wave (legacy : Bool) (s : Win9xSettings) (e : EditConfEntry)
    (h : e.sectionIdx = 1 → e.itemIdx = 7 →
      jsParseInt e.value = none ∨ jsParseInt e.value = some 0)
    (hdef : s.volumes.wave = 255) :
    (win9xStep legacy s e).volumes.wave = 255 := by
  rcases e with ⟨sec, item, v⟩
  simp only [win9xStep]
  by_cases hA : (legacy && sec == 21 && item == 1) = true
  · rw [if_pos hA]; simpa using hdef
  rw [if_neg hA]
  by_cases hB : (sec != 1) = true
  · rw [if_pos hB]; exact hdef
  rw [if_neg hB]
  have hsec : sec = 1 := by simpa using hB
  by_cases h1 : (item == 1) = true
  · rw [if_pos h1]; simpa using hdef
  rw [if_neg h1]
  by_cases h2 : (item == 2) = true
  · rw [if_pos h2]; simpa using hdef
  rw [if_neg h2]
  by_cases h3 : (item == 3) = true
  · rw [if_pos h3]; simpa using hdef
  rw [if_neg h3]
  by_cases h4 : (item == 4) = true
  · rw [if_pos h4]; simpa using hdef
  rw [if_neg h4]
  by_cases h5 : (item == 5) = true
  · rw [if_pos h5]; simpa using hdef
  rw [if_neg h5]
  by_cases h6 : (item == 6) = true
  · rw [if_pos h6]; simpa using hdef
  rw [if_neg h6]
  by_cases h7 : (item == 7) = true
  · rw [if_pos h7]
    have hit : item = 7 := by simpa using h7
    rcases h hsec hit with hz | hz <;> simp [jsOrInt, hz]
  rw [if_neg h7]
  by_cases h8 : (item == 8) = true
  · rw [if_pos h8]; simpa using hdef
  rw [if_neg h8]
  by_cases h9 : (item == 9) = true
  · rw [if_pos h9]; simpa using hdef
  rw [if_neg h9]
  exact hdef

theorem win9xStep_midi (legacy : Bool) (s : Win9xSettings) (e : EditConfEntry)
    (h : e.sectionIdx = 1 → e.itemIdx = 8 →
      jsParseInt e.value = none ∨ jsParseInt e.value = some 0)
    (hdef : s.volumes.midi = 255) :
    (win9xStep legacy s e).volumes.midi = 255 := by
  rcases e with ⟨sec, item, v⟩
  simp only [win9xStep]
  by_cases hA : (legacy && sec == 21 && item == 1) = true
  · rw [if_pos hA]; simpa using hdef
  rw [if_neg hA]
  by_cases hB : (sec != 1) = true
  · rw [if_pos hB]; exact hdef
  rw [if_neg hB]
  have hsec : sec = 1 := by simpa using hB
  by_cases h1 : (item == 1) = true
  · rw [if_pos h1]; simpa using hdef
  rw [if_neg h1]
  by_cases h2 : (item == 2) = true
  · rw [if_pos h2]; simpa using hdef
  rw [if_neg h2]
  by_cases h3 : (item == 3) = true
  · rw [if_pos h3]; simpa using hdef
  rw [if_neg h3]
  by_cases h4 : (item == 4) = true
  · rw [if_pos h4]; simpa using hdef
  rw [if_neg h4]
  by_cases h5 : (item == 5) = true
  · rw [if_pos h5]; simpa using hdef
  rw [if_neg h5]
  by_cases h6 : (item == 6) = true
  · rw [if_pos h6]; simpa using hdef
  rw [if_neg h6]
  by_cases h7 : (item == 7) = true
  · rw [if_pos h7]; simpa using hdef
  rw [if_neg h7]
  by_cases h8 : (item == 8) = true
  · rw [if_pos h8]
    have hit : item = 8 := by simpa using h8
    rcases h hsec hit with hz | hz <;> simp [jsOrInt, hz]
  rw [if_neg h8]
  by_cases h9 : (item == 9) = true
  · rw [if_pos h9]; simpa using hdef
  rw [if_neg h9]
  exact hdef

theorem win9xStep_cd (legacy : Bool) (s : Win9xSettings) (e : EditConfEntry)
    (h : e.sectionIdx = 1 → e.itemIdx = 9 →
      jsParseInt e.value = none ∨ jsParseInt e.value = some 0)
    (hdef : s.volumes.cd = 128) :
    (win9xStep legacy s e).volumes.cd = 128 := by
  rcases e with ⟨sec, item, v⟩
  simp only [win9xStep]
  by_cases hA : (legacy && sec == 21 && item == 1) = true
  · rw [if_pos hA]; simpa using hdef
  rw [if_neg hA]
  by_cases hB : (sec != 1) = true
  · rw [if_pos hB]; exact hdef
  rw [if_neg hB]
  have hsec : sec = 1 := by simpa using hB
  by_cases h1 : (item == 1) = true
  · rw [if_pos h1]; simpa using hdef
  rw [if_neg h1]
  by_cases h2 : (item == 2) = true
  · rw [if_pos h2]; simpa using hdef
  rw [if_neg h2]
  by_cases h3 : (item == 3) = true
  · rw [if_pos h3]; simpa using hdef
  rw [if_neg h3]
  by_cases h4 : (item == 4) = true
  · rw [if_pos h4]; simpa using hdef
  rw [if_neg h4]
  by_cases h5 : (item == 5) = true
  · rw [if_pos h5]; simpa using hdef
  rw [if_neg h5]
  by_cases h6 : (item == 6) = true
  · rw [if_pos h6]; simpa using hdef
  rw [if_neg h6]
  by_cases h7 : (item == 7) = true
  · rw [if_pos h7]; simpa using hdef
  rw [if_neg h7]
  by_cases h8 : (item == 8) = true
  · rw [if_pos h8]; simpa using hdef
  rw [if_neg h8]
  by_cases h9 : (item == 9) = true
  · rw [if_pos h9]
    have hit : item = 9 := by simpa using h9
    rcases h hsec hit with hz | hz <;> simp [jsOrInt, hz]
  rw [if_neg h9]
  exact hdef


theorem foldl_win9x_master (legacy : Bool) (entries : List EditConfEntry) :
    ∀ s : Win9xSettings,
      (∀ e ∈ entries, e.sectionIdx = 1 → e.itemIdx = 6 →
        jsParseInt e.value = none ∨ jsParseInt e.value = some 0) →
      s.volumes.master = 255 →
      (entries.foldl (win9xStep legacy) s).volumes.master = 255 := by
  induction entries with
  | nil => intro s _ h255; exact h255
  | cons e rest ih =>
    intro s h h255
    rw [List.foldl_cons]
    exact ih _ (fun q hq => h q (List.mem_cons_of_mem _ hq))
      (win9xStep_master legacy s e (h e (List.mem_cons_self _ _)) h255)

theorem foldl_win9x_wave (legacy : Bool) (entries : List EditConfEntry) :
    ∀ s : Win9xSettings,
      (∀ e ∈ entries, e.sectionIdx = 1 → e.itemIdx = 7 →
        jsParseInt e.value = none ∨ jsParseInt e.value = some 0) →
      s.volumes.wave = 255 →
      (entries.foldl (win9xStep legacy) s).volumes.wave = 255 := by
  induction entries with
  | nil => intro s _ h255; exact h255
  | cons e rest ih =>
    intro s h h255
    rw [List.foldl_cons]
    exact ih _ (fun q hq => h q (List.mem_cons_of_mem _ hq))
      (win9xStep_wave legacy s e (h e (List.mem_cons_self _ _)) h255)

theorem foldl_win9x_midi (legacy : Bool) (entries : List EditConfEntry) :
    ∀ s : Win9xSettings,
      (∀ e ∈ entries, e.sectionIdx = 1 → e.itemIdx = 8 →
        jsParseInt e.value = none ∨ jsParseInt e.value = some 0) →
      s.volumes.midi = 255 →
      (entries.foldl (win9xStep legacy) s).volumes.midi = 255 := by
  induction entries with
  | nil => intro s _ h255; exact h255
  | cons e rest ih =>
    intro s h h255
    rw [List.foldl_cons]
    exact ih _ (fun q hq => h q (List.mem_cons_of_mem _ hq))
      (win9xStep_midi legacy s e (h e (List.mem_cons_self _ _)) h255)

theorem foldl_win9x_cd (legacy : Bool) (entries : List EditConfEntry) :
    ∀ s : Win9xSettings,
      (∀ e ∈ entries, e.sectionIdx = 1 → e.itemIdx = 9 →
        jsParseInt e.value = none ∨ jsParseInt e.value = some 0) →
      s.volumes.cd = 128 →
      (entries.foldl (win9xStep legacy) s).volumes.cd = 128 := by
  induction entries with
  | nil => intro s _ h128; exact h128
  | cons e rest ih =>
    intro s h h128
    rw [List.foldl_cons]
    exact ih _ (fun q hq => h q (List.mem_cons_of_mem _ hq))
      (win9xStep_cd legacy s e (h e (List.mem_cons_self _ _)) h128)

/-! ## Entry-parser lemmas -/

theorem splitCh_no_sep (sep : Char) (cs : List Char) (h : sep ∉ cs) :
    splitCh sep cs = [cs] := by
  induction cs with
  | nil => rfl
  | cons c rest ih =>
    have hc : ¬ (c == sep) = true := by
      simp only [beq_iff_eq]
      exact fun hh => h (hh ▸ List.mem_cons_self _ _)
    have hrest : sep ∉ rest := fun hh => h (List.mem_cons_of_mem _ hh)
    rw [splitCh, ih hrest]
    simp [hc]

theorem parseEditConf_single (l : String) (h : '\n' ∉ l.data) :
    parseEditConf l =
      match parseEditConfLine l.data with
      | some e => [e]
      | none => [] := by
  rw [parseEditConf, splitCh_no_sep _ _ h, List.foldl_cons]
  cases hp : parseEditConfLine l.data <;> simp [hp]

/-! ## Assembler lemmas -/

theorem confLines_filter (m : DosboxSettings) :
    confLines (m.filter fun p => !(isPseudoSection p.1)) = confLines m := by
  induction m with
  | nil => rfl
  | cons p rest ih =>
    by_cases hp : isPseudoSection p.1 <;>
      simp [List.filter_cons, confLines, hp, ih]

theorem confLines_dosbox (m : DosboxSettings) (items : List (String × String))
    (h : ("dosbox", items) ∈ m) : "[dosbox]" ∈ confLines m := by
  induction m with
  | nil => cases h
  | cons p rest ih =>
    rcases List.mem_cons.mp h with hh | hh
    · rw [confLines, ← hh]
      simp [isPseudoSection]
    · exact List.mem_append_right _ (ih hh)

/-! ## Template-engine lemmas -/

theorem alookup_override {κ α : Type} [BEq κ] [LawfulBEq κ]
    (values : List (κ × α)) (defaults : List (κ × α)) (k : κ)
    (hnd : (values.map Prod.fst).Nodup) :
    alookup (values.foldl (fun acc kv => setKV acc kv.1 kv.2) defaults) k =
      match alookup values k with
      | some v => some v
      | none => alookup defaults k := by
  induction values generalizing defaults with
  | nil => rfl
  | cons kv rest ih =>
    rw [List.map_cons, List.nodup_cons] at hnd
    rw [List.foldl_cons, ih _ hnd.2]
    by_cases hk : kv.1 == k
    · have hk' : kv.1 = k := by simpa using hk
      have hrest : alookup rest k = none := by
        apply alookup_eq_none_of_not_mem
        rw [← hk']
        exact hnd.1
      rw [alookup_cons, if_pos hk, hrest, ← hk', setKV_alookup_self]
    · have hk' : ¬ k = kv.1 := fun hh => hk (by simp [hh])
      rw [alookup_cons, if_neg hk, setKV_alookup_ne _ _ _ _ hk']

theorem substAux_scan (f : String → String) (tok : List Char) :
    ∀ (acc rest : List Char), (∀ c ∈ tok, c ≠ '@') → acc.reverse ++ tok ≠ [] →
      substAux f (some acc) (tok ++ '@' :: rest) =
        (f (String.mk (acc.reverse ++ tok))).data ++ substAux f none rest := by
  induction tok with
  | nil =>
    intro acc rest _ h2
    cases acc with
    | nil => simp at h2
    | cons a as => simp [substAux]
  | cons c tok' ih =>
    intro acc rest h1 h2
    have hc : ¬ (c == '@') = true := by
      simp only [beq_iff_eq]
      exact h1 c (List.mem_cons_self _ _)
    have htl : ∀ q ∈ tok', q ≠ '@' := fun q hq => h1 q (List.mem_cons_of_mem _ hq)
    cases acc with
    | nil =>
      rw [List.cons_append, substAux, if_neg hc, ih [c] rest htl (by simp)]
      simp [List.append_assoc]
    | cons a as =>
      rw [List.cons_append, substAux, if_neg hc,
        ih (c :: a :: as) rest htl (by simp)]
      simp [List.append_assoc]

theorem substTokens_single (f : String → String) (tok : List Char)
    (hne : tok ≠ []) (hnoat : ∀ c ∈ tok, c ≠ '@') :
    substTokens f ('@' :: (tok ++ ['@'])) = (f (String.mk tok)).data := by
  have : ('@' : Char) == '@' := by decide
  rw [substTokens, substAux, if_pos this,
    substAux_scan f tok [] [] hnoat (by simpa using hne)]
  simp [substAux]


/-! ## Claim theorems -/

/-- C1 counterexample: resolving the single entry (7, 3, "256") under the
legacy schema yields the empty settings map, not {dosbox: {memsize: "256"}} —
the legacy section table has no entry for section 7. -/
theorem C1_claim_counterexample :
    convertEditConfToSettings [⟨7, 3, "256"⟩] true = [] ∧
    convertEditConfToSettings [⟨7, 3, "256"⟩] true ≠
      [("dosbox", [("memsize", "256")])] :=
  ⟨rfl, by decide⟩

/-- C1 (amended): under the legacy schema the dosbox section has index 3,
so the entry (3, 3, "256") resolves to {dosbox: {memsize: "256"}}, while the
entry (7, 3, "256") is dropped because the legacy registry does not map
section 7. -/
theorem C1_legacy_memsize_resolution :
    convertEditConfToSettings [⟨3, 3, "256"⟩] true =
      [("dosbox", [("memsize", "256")])] ∧
    convertEditConfToSettings [⟨7, 3, "256"⟩] true = [] :=
  ⟨rfl, rfl⟩

/-- C2: under the legacy schema the Win9x resolution is read from the aliased
address (21, 1): extractWin9xSettings parses such an entry's value directly,
and the revised legacy registry omits section 21 entirely, so no (21, i, v)
entry produces any key through the revised convertEditConfToSettings. -/
theorem C2_legacy_win9x_resolution_alias :
    (∀ (pre : List EditConfEntry) (v : String),
      (extractWin9xSettings (pre ++ [⟨21, 1, v⟩]) true).resolution =
        parse9xResolution v) ∧
    alookup V2.SECTION_INDEX_LEGACY 21 = none ∧
    alookup V2.SECTION_ITEMS_LEGACY 21 = none ∧
    ∀ (i : Int) (v : String) (rest : List EditConfEntry),
      V2.convertEditConfToSettings (⟨21, i, v⟩ :: rest) true =
        V2.convertEditConfToSettings rest true :=
  ⟨extractWin9x_legacy_res_last, rfl, rfl, fun _ _ _ => rfl⟩

/-- C4: "ver.21.12.31" parses to 211231 (legacy), "ver.22.00.00" parses to
220000 which is current (the boundary value itself is current), and a
malformed marker parses to 0 which is legacy; parsing is total. -/
theorem C4_version_threshold :
    parseEditConfVersion "ver.21.12.31" = 211231 ∧
    isLegacyVersion 211231 = true ∧
    parseEditConfVersion "ver.22.00.00" = 220000 ∧
    isLegacyVersion 220000 = false ∧
    parseEditConfVersion "ver.garbage" = 0 ∧
    isLegacyVersion 0 = true :=
  ⟨rfl, rfl, rfl, rfl, rfl, rfl⟩

/-- C8: an entry whose address is unknown to the active schema is skipped —
removing it from the entry list leaves the resolved settings map unchanged —
and the address (99, 99) is unknown under both schema versions, also to
option-dat's getKeyForEditConfEntry. -/
theorem C8_unknown_address_skipped :
    (∀ (e : EditConfEntry) (legacy : Bool) (pre post : List EditConfEntry),
      schemaKeyFor (if legacy then SECTION_INDEX_LEGACY else SECTION_INDEX)
        (if legacy then SECTION_ITEMS_LEGACY else SECTION_ITEMS)
        e.sectionIdx e.itemIdx = none →
      convertEditConfToSettings (pre ++ e :: post) legacy =
        convertEditConfToSettings (pre ++ post) legacy) ∧
    OptionDat.getKeyForEditConfEntry 99 99 = none ∧
    ∀ legacy : Bool,
      schemaKeyFor (if legacy then SECTION_INDEX_LEGACY else SECTION_INDEX)
        (if legacy then SECTION_ITEMS_LEGACY else SECTION_ITEMS) 99 99 = none := by
  refine ⟨fun e legacy pre post h => convertWith_skip _ _ e pre post h, rfl, ?_⟩
  intro legacy
  cases legacy <;> rfl

/-- C8 witness: the entry 99|99|anything is dropped under the legacy schema. -/
theorem C8_unknown_address_skipped_witness :
    convertEditConfToSettings [⟨99, 99, "anything"⟩] true =
      convertEditConfToSettings [] true :=
  C8_unknown_address_skipped.1 ⟨99, 99, "anything"⟩ true [] [] (by decide)

/-- C9: parse9xResolution "800x16" is 800x600 at 16 bpp; every input string
the regex scan does not match (scanRes none, e.g. "garbage") falls back to
the 640x480x8 default without failing; and the height is always the fixed
table image of the width (640 to 480, 800 to 600, 1024 to 768, 1152 to 864,
1280 to 960, 1600 to 1200, otherwise 480). -/
theorem C9_resolution_derivation :
    parse9xResolution "800x16" = ⟨800, 600, 16⟩ ∧
    parse9xResolution "garbage" = ⟨640, 480, 8⟩ ∧
    (∀ s : String, scanRes s.data = none → parse9xResolution s = ⟨640, 480, 8⟩) ∧
    ∀ s : String,
      (parse9xResolution s).height = heightForWidth (parse9xResolution s).width := by
  refine ⟨rfl, rfl, fun s h => by simp [parse9xResolution, h], fun s => ?_⟩
  cases h : scanRes s.data with
  | none => simp [parse9xResolution, h]; rfl
  | some pq => rcases pq with ⟨d1, d2⟩; simp [parse9xResolution, h]

/-- C9 witness: "garbage" does not match the pattern and yields the default. -/
theorem C9_resolution_derivation_witness :
    parse9xResolution "garbage" = ⟨640, 480, 8⟩ :=
  C9_resolution_derivation.2.2.1 "garbage" rfl


/-- C5: mergeSettings gives override entries precedence, keeps base entries
that the override does not mention (the model is pure, so the base value is
never mutated), and reproduces the documented example. -/
theorem C5_merge_precedence :
    (∀ (base override : DosboxSettings) (s k : String),
      (override.map Prod.fst).Nodup →
      (∀ p ∈ override, (p.2.map Prod.fst).Nodup) →
      lookup2 (mergeSettings base override) s k =
        match lookup2 override s k with
        | some v => some v
        | none => lookup2 base s k) ∧
    mergeSettings [("dosbox", [("memsize", "16")])]
        [("dosbox", [("memsize", "256")]), ("cpu", [("core", "auto")])] =
      [("dosbox", [("memsize", "256")]), ("cpu", [("core", "auto")])] :=
  ⟨fun base ov s k h1 h2 => mergeSettings_lookup2 base ov s k h1 h2, rfl⟩

/-- C5 witness: in the documented example the override value wins. -/
theorem C5_merge_precedence_witness :
    lookup2 (mergeSettings [("dosbox", [("memsize", "16")])]
        [("dosbox", [("memsize", "256")]), ("cpu", [("core", "auto")])])
      "dosbox" "memsize" = some "256" := by
  rw [C5_merge_precedence.1 _ _ _ _ (by decide) (by decide)]
  rfl

/-- C10: a win9x volume of zero cannot be expressed — when every entry for a
volume slot (section 1, items 6-9) has a value whose parse is 0 or fails,
extractWin9xSettings keeps the built-in default (255 for master, wave and
midi, 128 for cd); extractWin9xDisplaySettings treats "0" the same way. -/
theorem C10_zero_volume_default :
    (∀ (entries : List EditConfEntry) (legacy : Bool),
      (∀ e ∈ entries, e.sectionIdx = 1 → e.itemIdx = 6 →
        jsParseInt e.value = none ∨ jsParseInt e.value = some 0) →
      (extractWin9xSettings entries legacy).volumes.master = 255) ∧
    (∀ (entries : List EditConfEntry) (legacy : Bool),
      (∀ e ∈ entries, e.sectionIdx = 1 → e.itemIdx = 7 →
        jsParseInt e.value = none ∨ jsParseInt e.value = some 0) →
      (extractWin9xSettings entries legacy).volumes.wave = 255) ∧
    (∀ (entries : List EditConfEntry) (legacy : Bool),
      (∀ e ∈ entries, e.sectionIdx = 1 → e.itemIdx = 8 →
        jsParseInt e.value = none ∨ jsParseInt e.value = some 0) →
      (extractWin9xSettings entries legacy).volumes.midi = 255) ∧
    (∀ (entries : List EditConfEntry) (legacy : Bool),
      (∀ e ∈ entries, e.sectionIdx = 1 → e.itemIdx = 9 →
        jsParseInt e.value = none ∨ jsParseInt e.value = some 0) →
      (extractWin9xSettings entries legacy).volumes.cd = 128) ∧
    ∀ v : String, jsParseInt v = none ∨ jsParseInt v = some 0 →
      (extractWin9xDisplaySettings
        [("win9x_9xmaster", v), ("win9x_9xcd", v)]).volumes =
        ⟨255, 255, 255, 128⟩ := by
  refine ⟨fun entries legacy h => foldl_win9x_master legacy entries _ h rfl,
    fun entries legacy h => foldl_win9x_wave legacy entries _ h rfl,
    fun entries legacy h => foldl_win9x_midi legacy entries _ h rfl,
    fun entries legacy h => foldl_win9x_cd legacy entries _ h rfl,
    fun v hv => ?_⟩
  by_cases hv0 : v = ""
  · subst hv0; rfl
  · have hvb : (v == "") = false := by simpa using hv0
    simp only [extractWin9xDisplaySettings, getTruthy, alookup, win9xDefaults]
    rcases hv with hz | hz <;>
      simp [hvb, jsOrInt, hz]

/-- C10 witness: a literal volume entry "0" for the master slot yields the
default 255, and "0" values in the display map leave all volume defaults. -/
theorem C10_zero_volume_default_witness :
    (extractWin9xSettings [⟨1, 6, "0"⟩] false).volumes.master = 255 :=
  C10_zero_volume_default.1 [⟨1, 6, "0"⟩] false (by decide)


theorem strMk_data (s : String) : String.mk s.data = s := by
  cases s
  rfl

/-- C6: a placeholder resolves to the supplied value when present, else to
the default-table value when present, else to the empty string; rendering the
documented two-token template reproduces "memsize=256\ncore=auto", and a
token absent from the value map falls back to the global WIN9X_DEFAULTS
table. -/
theorem C6_template_fallback :
    (∀ (defaults values : List (String × String)) (tok : String),
      tok.data ≠ [] → (∀ c ∈ tok.data, c ≠ '@') →
      (values.map Prod.fst).Nodup →
      applyValuesToTemplateCore defaults ("@" ++ tok ++ "@") values =
        match alookup values tok with
        | some v => v
        | none =>
          match alookup defaults tok with
          | some d => d
          | none => "") ∧
    applyValuesToTemplateCore [("cpu_core", "auto")]
        "memsize=@dosbox_memsize@\ncore=@cpu_core@" [("dosbox_memsize", "256")] =
      "memsize=256\ncore=auto" ∧
    applyValuesToTemplate "@sdl_fullscreen@" [] = "false" := by
  refine ⟨fun defaults values tok hne hnoat hnd => ?_, rfl, rfl⟩
  have hdata : ("@" ++ tok ++ "@").data = '@' :: (tok.data ++ ['@']) := by
    simp
  rw [applyValuesToTemplateCore, hdata,
    substTokens_single _ tok.data hne hnoat, strMk_data]
  rw [alookup_override values defaults tok hnd]
  cases hv : alookup values tok with
  | some v => simp [strMk_data]
  | none =>
    cases hd : alookup defaults tok with
    | some d =>
      by_cases hd0 : d = "" <;> simp [hd, hd0, strMk_data]
    | none => simp [hd, strMk_data]

/-- C6 witness: with value map empty, a token present in the supplied default
table resolves to its default. -/
theorem C6_template_fallback_witness :
    applyValuesToTemplateCore [("cpu_core", "auto")] ("@" ++ "cpu_core" ++ "@") []
      = "auto" := by
  rw [C6_template_fallback.1 [("cpu_core", "auto")] [] "cpu_core"
    (by decide) (by decide) (by decide)]
  rfl


/-- C3 counterexample: the line "-1|0|x" is accepted as an entry although its
first field parses to the negative integer -1, refuting that acceptance
requires the first two parts to parse as non-negative integers. -/
theorem C3_claim_counterexample :
    parseEditConf "-1|0|x" = [⟨-1, 0, "x"⟩] ∧ (-1 : Int) < 0 :=
  ⟨rfl, by decide⟩

/-- C3 (amended): a single line is accepted as an entry iff, after trimming,
it is not a version-marker line and splitting it on the pipe yields at least
3 parts whose first two parse under JS parseInt semantics (sign and trailing
garbage allowed, hence possibly negative); the accepted value is the
remaining parts of the trimmed line rejoined with the pipe. -/
theorem C3_entry_acceptance (line : String) (h : '\n' ∉ line.data) :
    (parseEditConf line ≠ [] ↔
      "ver.".data.isPrefixOf (jsTrimList line.data) = false ∧
      3 ≤ (splitCh '|' (jsTrimList line.data)).length ∧
      (jsParseIntList ((splitCh '|' (jsTrimList line.data)).headD [])).isSome = true ∧
      (jsParseIntList
        (((splitCh '|' (jsTrimList line.data)).drop 1).headD [])).isSome = true) ∧
    ∀ e : EditConfEntry, parseEditConf line = [e] →
      e.value = String.mk (joinCh '|' ((splitCh '|' (jsTrimList line.data)).drop 2)) ∧
      some e.sectionIdx =
        jsParseIntList ((splitCh '|' (jsTrimList line.data)).headD []) ∧
      some e.itemIdx =
        jsParseIntList (((splitCh '|' (jsTrimList line.data)).drop 1).headD []) := by
  rw [parseEditConf_single line h]
  by_cases hver : "ver.".data.isPrefixOf (jsTrimList line.data) = true
  · have hline : parseEditConfLine line.data = none := by
      simp only [parseEditConfLine]
      simp [hver]
    simp [hline, hver]
  · by_cases hemp : (jsTrimList line.data).isEmpty = true
    · have ht : jsTrimList line.data = [] := by simpa using hemp
      have hline : parseEditConfLine line.data = none := by
        simp only [parseEditConfLine]
        simp [hemp]
      rw [hline]
      simp [ht, splitCh]
    · by_cases hlen : 3 ≤ (splitCh '|' (jsTrimList line.data)).length
      · obtain ⟨p0, p1, ps, hparts⟩ :
            ∃ p0 p1 ps, splitCh '|' (jsTrimList line.data) = p0 :: p1 :: ps := by
          rcases hsp : splitCh '|' (jsTrimList line.data) with _ | ⟨q0, _ | ⟨q1, qs⟩⟩
          · rw [hsp] at hlen; simp at hlen
          · rw [hsp] at hlen; simp at hlen
          · exact ⟨q0, q1, qs, rfl⟩
        rw [hparts] at hlen ⊢
        cases hp0 : jsParseIntList p0 with
        | none =>
          have hline : parseEditConfLine line.data = none := by
            simp only [parseEditConfLine]
            rw [hparts]
            simp [hver, hemp, hp0]
          rw [hline]
          simp [hp0]
        | some sec =>
          cases hp1 : jsParseIntList p1 with
          | none =>
            have hline : parseEditConfLine line.data = none := by
              simp only [parseEditConfLine]
              rw [hparts]
              simp [hver, hemp, hp0, hp1]
            rw [hline]
            simp [hp1]
          | some it =>
            have hline : parseEditConfLine line.data =
                some ⟨sec, it, String.mk (joinCh '|' ps)⟩ := by
              simp only [parseEditConfLine]
              rw [hparts]
              simp [hver, hemp, hp0, hp1]
              intro hps
              rw [hps] at hlen
              simp at hlen
            rw [hline]
            constructor
            · constructor
              · intro _
                refine ⟨?_, hlen, by simp [hp0], by simp [hp1]⟩
                rw [Bool.eq_false_iff]
                exact hver
              · intro _
                simp
            · intro e he
              simp only [List.cons.injEq, and_true] at he
              rw [← he]
              simp [hp0, hp1]
      · have hline : parseEditConfLine line.data = none := by
          simp only [parseEditConfLine]
          simp [hver, hemp, hlen]
        rw [hline]
        simp [hlen]

/-- C3 witness: the line "7|3|2|56" (an embedded delimiter in the value) is
accepted. -/
theorem C3_entry_acceptance_witness :
    parseEditConf "7|3|2|56" ≠ [] :=
  (C3_entry_acceptance "7|3|2|56" (by decide)).1.mpr (by decide)

/-- C7 counterexample: the assembled document does NOT end with
"[autoexec]\nexit\n" — generateDosboxConf trims the joined text, which
strips the trailing newline of the autoexec block. -/
theorem C7_claim_counterexample :
    strEndsWith
      (generateDosboxConf
        [("default", [("version", "x")]), ("dosbox", [("memsize", "16")])]
        "exit\n" none)
      "[autoexec]\nexit\n" = false := rfl

/-- C7 (amended): pseudo sections (default, win9x, pcem, separator) are never
emitted — dropping them from the map leaves the serialized lines unchanged —
a dosbox section always emits its "[dosbox]" header line, and the documented
example assembles to "[dosbox]\nmemsize=16\n\n[autoexec]\nexit": it contains
"[dosbox]", does not contain "[default]", and ends with "[autoexec]\nexit"
(the trailing newline of the autoexec text is trimmed away). -/
theorem C7_pseudo_section_exclusion :
    (∀ settings : DosboxSettings,
      confLines settings =
        confLines (settings.filter fun p => !(isPseudoSection p.1))) ∧
    (∀ (settings : DosboxSettings) (items : List (String × String)),
      ("dosbox", items) ∈ settings → "[dosbox]" ∈ confLines settings) ∧
    generateDosboxConf
        [("default", [("version", "x")]), ("dosbox", [("memsize", "16")])]
        "exit\n" none = "[dosbox]\nmemsize=16\n\n[autoexec]\nexit" ∧
    strContains
      (generateDosboxConf
        [("default", [("version", "x")]), ("dosbox", [("memsize", "16")])]
        "exit\n" none) "[dosbox]" = true ∧
    strContains
      (generateDosboxConf
        [("default", [("version", "x")]), ("dosbox", [("memsize", "16")])]
        "exit\n" none) "[default]" = false ∧
    strEndsWith
      (generateDosboxConf
        [("default", [("version", "x")]), ("dosbox", [("memsize", "16")])]
        "exit\n" none) "[autoexec]\nexit" = true :=
  ⟨fun s => (confLines_filter s).symm,
    fun s items hmem => confLines_dosbox s items hmem, rfl, rfl, rfl, rfl⟩

/-- C7 witness: the example map emits its "[dosbox]" header line. -/
theorem C7_pseudo_section_exclusion_witness :
    "[dosbox]" ∈ confLines
      [("default", [("version", "x")]), ("dosbox", [("memsize", "16")])] :=
  C7_pseudo_section_exclusion.2.1 _ [("memsize", "16")] (by decide)

end Doogie
